import Mathlib

/-!
Shallow embedding of `src/chisel/src/cmd_oneliner.rs` (the oneliner mode of
the chisel CLI) and proofs about it.

The orchestration function `chisel_oneliner` is translated statement by
statement.  The collaborators that live outside the visible source
(`ChiselConfig::from_args` in config.rs, `ChiselDriver` in driver.rs, the
logger) are modelled abstractly as an `Engine` record of functions, with the
shapes the spec gives for them; everything that IS in cmd_oneliner.rs — the
flag checks, the binding injection, the fire loop, the output-mode dispatch
and the result reporting — is embedded concretely.

Effects are made observable in the returned `RunOutput` record: the process
outcome (normal return, `fail(code,msg)`, or panic), the sequence of
`set_global_log_level` calls, the `eprintln!` lines (logger-gated
`chisel_debug!` trace lines go through the external logger and are not part
of this record), the arguments handed to `ChiselConfig::from_args` if it was
called, the configuration handed to `ChiselDriver::new` if one was
constructed, and the number of `driver.fire()` calls made.
-/

set_option autoImplicit false

namespace Chisel

/-- CLI flags, consumed only through `ChiselFlags::value_of` in the source. -/
structure ChiselFlags where
  value_of : String → Option String

/-- Modelled from the spec: an OptionMap is a mapping from option key to
string option value, keys unique within a module (config.rs is not in the
visible source).  We use an association list. -/
abbrev OptionMap := List (String × String)

/-- Map insertion: replace the value at an existing key, else append.
This is the observable behaviour of `HashMap::insert` on a map whose keys
are unique. -/
def mapInsert : OptionMap → String → String → OptionMap
  | [], k, v => [(k, v)]
  | (k', v') :: rest, k, v =>
      if k' = k then (k, v) :: rest else (k', v') :: mapInsert rest k v

/-- Map lookup by key. -/
def mapLookup : OptionMap → String → Option String
  | [], _ => none
  | (k', v') :: rest, k => if k' = k then some v' else mapLookup rest k

/-- Modelled from the spec: a ruleset as held by the configuration — the
source touches only its option map, via `options_mut()`. -/
structure Ruleset where
  options : OptionMap
deriving DecidableEq

/-- Modelled from the spec: a RunConfiguration holds an ordered sequence of
(module name, ruleset) pairs, accessed in the source via `rulesets_mut()`. -/
structure ChiselConfig where
  rulesets : List (String × Ruleset)
deriving DecidableEq

/-- Modelled from the spec: the driver state returned by each `fire()` call —
one of Continuing, Error(cause, partial-state diagnostic), Done(result).
driver.rs is not in the visible source. -/
inductive DriverState
  | Continuing
  | Error (cause : String) (diag : String)
  | Done (result : String)

/-- Modelled from the spec: a per-ruleset outcome of the execution result;
the source only calls `write(mode)`, which yields Ok(changed) or an I/O
error. -/
structure RulesetOutcome where
  write : String → Except String Bool

/-- Modelled from the spec: the execution result taken from the driver:
an ordered collection of per-ruleset outcomes (a Vec in the source, popped
from the back), plus its Display rendering used by `eprintln!`. -/
structure ExecutionResult where
  rulesets : List RulesetOutcome
  display : String

/-- The external collaborators of cmd_oneliner.rs, modelled as a record:
`from_args` is `ChiselConfig::from_args`; `fires cfg i` is the state the
`i`-th `driver.fire()` call returns for a driver built from `cfg`;
`takeResult cfg` is what `driver.take_result()` yields after Done. -/
structure Engine where
  from_args : String → String → Except String ChiselConfig
  fires : ChiselConfig → Nat → DriverState
  takeResult : ChiselConfig → ExecutionResult

/-- How the process run ends: a normal return of the exit code, a call of
`fail(code, msg)` (which terminates the process with that code after
printing the message), or a Rust panic. -/
inductive Outcome
  | exited (code : Int)
  | failed (code : Int) (msg : String)
  | panicked (msg : String)
deriving DecidableEq

/-- Observable effects of one `chisel_oneliner` run. -/
structure RunOutput where
  outcome : Outcome
  /-- Arguments of the `logger::set_global_log_level` calls, in order. -/
  logSets : List Int
  /-- Unconditional `eprintln!` lines, in order. -/
  stderr : List String
  /-- The `(modules, options)` strings passed to `ChiselConfig::from_args`,
  if it was invoked. -/
  parsedArgs : Option (String × String)
  /-- The configuration handed to `ChiselDriver::new`, if one was built. -/
  driverConfig : Option ChiselConfig
  /-- Number of `driver.fire()` calls made. -/
  fireCount : Nat

/-- Lines 16-20: `let log_level = match flags.value_of("util.debugging")
{ Some("true") => 1, Some("false") => 0, _ => panic! }`.  `none` stands for
the panic arm. -/
def dbgLevel (v : Option String) : Option Int :=
  if v = some "true" then some 1
  else if v = some "false" then some 0
  else none

/-- Lines 29-34: the options list, or `""` when the flag is absent. -/
def optionsList (flags : ChiselFlags) : String :=
  match flags.value_of "oneliner.modules.options" with
  | some opts => opts
  | none => ""

/-- Lines 41-44: the output file, defaulting to `/dev/stdout`. -/
def resolveOutput (v : Option String) : String :=
  match v with
  | some p => p
  | none => "/dev/stdout"

/-- Lines 48-58: insert the input and output file paths into
`config.rulesets_mut()[0].1.options_mut()` — first under key "file", then
under key "output".  Indexing `[0]` on an empty Vec panics (the `none`
result). -/
def injectBindings (config : ChiselConfig) (input_file output_file : String) :
    Option ChiselConfig :=
  match config.rulesets with
  | [] => none
  | (name, r0) :: rest =>
      some ⟨(name,
        ⟨mapInsert (mapInsert r0.options "file" input_file) "output" output_file⟩) :: rest⟩

/-- Lines 99-107: report the `io_result` of the write: `Ok(true)` and
`Ok(false)` both fall through to the final `0`, with distinct `eprintln!`
lines; `Err` fails with exit code 1. -/
def reportWrite (io_result : Except String Bool) : Outcome × List String :=
  match io_result with
  | .ok true => (.exited 0, ["Successfully wrote output to file."])
  | .ok false => (.exited 0, ["No changes to write."])
  | .error e => (.failed 1 ("failed to write output to file: " ++ e), [])

/-- Lines 84-97 inner step: `results.pop().expect("One ruleset was executed")`
(`Vec::pop` removes the LAST element; on an empty Vec `expect` panics) and
then `result.write(mode)`. -/
def writeSelected (results : ExecutionResult) (mode : String) : Outcome × List String :=
  match results.rulesets.getLast? with
  | none => (.panicked "One ruleset was executed", [])
  | some result => reportWrite (result.write mode)

/-- Lines 83-97: dispatch on `flags.value_of("output.mode")`; any value
other than Some("bin"|"wat"|"hex") is the catch-all panic arm. -/
def selectMode (flags : ChiselFlags) (results : ExecutionResult) : Outcome × List String :=
  let m := flags.value_of "output.mode"
  if m = some "bin" then writeSelected results "bin"
  else if m = some "wat" then writeSelected results "wat"
  else if m = some "hex" then writeSelected results "hex"
  else (.panicked "CLI parser ensures value can only be one of the above", [])

/-- Lines 62-107: build the driver from the injected config, run the fire
loop, then take the result, print it, and write the selected output.
Every arm of the loop body in the source leaves the
loop (the Error arm calls `fail`, which terminates the process; the Done arm
breaks; the wildcard arm panics), so exactly one `fire()` call is made and
only its result matters. -/
def runDriver (eng : Engine) (flags : ChiselFlags) (pargs : String × String)
    (config : ChiselConfig) (lvl : Int) : RunOutput :=
  match eng.fires config 0 with
  | .Error err _ =>
      ⟨.failed 1 ("runtime error: " ++ err), [lvl], [], some pargs, some config, 1⟩
  | .Continuing =>
      ⟨.panicked "Should never return READY", [lvl], [], some pargs, some config, 1⟩
  | .Done _ =>
      let results := eng.takeResult config
      let out := selectMode flags results
      ⟨out.1, [lvl], results.display :: out.2, some pargs, some config, 1⟩

/-- Lines 26-107, the `Some(module_list)` arm: resolve the options list, the
input file (absence fails with "No file specified"), the output file; parse
the configuration; inject the bindings; then run the driver. -/
def withModules (eng : Engine) (flags : ChiselFlags) (module_list : String)
    (lvl : Int) : RunOutput :=
  let options_list := optionsList flags
  match flags.value_of "oneliner.file" with
  | none => ⟨.failed 1 "No file specified", [lvl], [], none, none, 0⟩
  | some input_file =>
    let output_file := resolveOutput (flags.value_of "oneliner.output")
    match eng.from_args module_list options_list with
    | .error e =>
        ⟨.failed 1 ("Failed to load configuration: " ++ e), [lvl], [],
          some (module_list, options_list), none, 0⟩
    | .ok config =>
      match injectBindings config input_file output_file with
      | none =>
          ⟨.panicked "index out of bounds: the len is 0 but the index is 0",
            [lvl], [], some (module_list, options_list), none, 0⟩
      | some chisel_config =>
          runDriver eng flags (module_list, options_list) chisel_config lvl

/-- Lines 21-110 after the log level is known: `set_global_log_level` (the
recorded `lvl`), then the match on `flags.value_of("oneliner.modules")`,
whose `None` arm fails with "no modules specified". -/
def withLogLevel (eng : Engine) (flags : ChiselFlags) (lvl : Int) : RunOutput :=
  match flags.value_of "oneliner.modules" with
  | some module_list => withModules eng flags module_list lvl
  | none => ⟨.failed 1 "no modules specified", [lvl], [], none, none, 0⟩

/-- Lines 15-111: `pub fn chisel_oneliner(flags: ChiselFlags) -> i32`. -/
def chisel_oneliner (eng : Engine) (flags : ChiselFlags) : RunOutput :=
  match dbgLevel (flags.value_of "util.debugging") with
  | some lvl => withLogLevel eng flags lvl
  | none =>
      ⟨.panicked "util.debugging must be set \x27true\x27 or \x27false\x27",
        [], [], none, none, 0⟩


/-! Helper lemmas. -/

theorem mapLookup_mapInsert_self (m : OptionMap) (k v : String) :
    mapLookup (mapInsert m k v) k = some v := by
  induction m with
  | nil => simp [mapInsert, mapLookup]
  | cons p rest ih =>
      obtain ⟨k', v'⟩ := p
      by_cases h : k' = k
      · simp [mapInsert, h, mapLookup]
      · simp [mapInsert, h, mapLookup, ih]

theorem mapLookup_mapInsert_ne (m : OptionMap) (k v k' : String) (h : k ≠ k') :
    mapLookup (mapInsert m k v) k' = mapLookup m k' := by
  induction m with
  | nil => simp [mapInsert, mapLookup, h]
  | cons p rest ih =>
      obtain ⟨k0, v0⟩ := p
      by_cases h0 : k0 = k
      · subst h0
        simp [mapInsert, mapLookup, h]
      · simp [mapInsert, h0, mapLookup, ih]

theorem injectBindings_cons (name : String) (r0 : Ruleset)
    (rest : List (String × Ruleset)) (cfg : ChiselConfig) (inp out : String)
    (hrs : cfg.rulesets = (name, r0) :: rest) :
    injectBindings cfg inp out =
      some ⟨(name, ⟨mapInsert (mapInsert r0.options "file" inp) "output" out⟩) :: rest⟩ := by
  unfold injectBindings
  rw [hrs]

theorem runDriver_driverConfig (eng : Engine) (flags : ChiselFlags)
    (pargs : String × String) (config : ChiselConfig) (lvl : Int) :
    (runDriver eng flags pargs config lvl).driverConfig = some config := by
  unfold runDriver
  split <;> rfl

theorem runDriver_logSets (eng : Engine) (flags : ChiselFlags)
    (pargs : String × String) (config : ChiselConfig) (lvl : Int) :
    (runDriver eng flags pargs config lvl).logSets = [lvl] := by
  unfold runDriver
  split <;> rfl

theorem withLogLevel_logSets (eng : Engine) (flags : ChiselFlags) (lvl : Int) :
    (withLogLevel eng flags lvl).logSets = [lvl] := by
  unfold withLogLevel
  split
  · unfold withModules
    dsimp only
    split
    · rfl
    · split
      · rfl
      · split
        · rfl
        · exact runDriver_logSets ..
  · rfl

theorem run_reaches_driver (eng : Engine) (flags : ChiselFlags) (lvl : Int)
    (ml f : String) (cfg cfg' : ChiselConfig)
    (hdbg : dbgLevel (flags.value_of "util.debugging") = some lvl)
    (hm : flags.value_of "oneliner.modules" = some ml)
    (hf : flags.value_of "oneliner.file" = some f)
    (hargs : eng.from_args ml (optionsList flags) = .ok cfg)
    (hinj : injectBindings cfg f (resolveOutput (flags.value_of "oneliner.output")) =
      some cfg') :
    chisel_oneliner eng flags = runDriver eng flags (ml, optionsList flags) cfg' lvl := by
  simp [chisel_oneliner, hdbg, withLogLevel, hm, withModules, hf, hargs, hinj]


/-! Concrete engines and flag sets used to instantiate the theorems. -/

/-- An engine whose driver always reports Continuing. -/
def contEngine : Engine :=
  { from_args := fun _ _ => .ok ⟨[("mod", ⟨[]⟩)]⟩
    fires := fun _ _ => .Continuing
    takeResult := fun _ => ⟨[], ""⟩ }

/-- An engine whose driver fails at once, carrying a partial-state
diagnostic alongside the error cause. -/
def errEngine : Engine :=
  { from_args := fun _ _ => .ok ⟨[("mod", ⟨[]⟩)]⟩
    fires := fun _ _ => .Error "boom" "hidden-state-diag"
    takeResult := fun _ => ⟨[], ""⟩ }

/-- A ruleset outcome whose write always succeeds, reporting `b` as the
changed flag. -/
def okOutcome (b : Bool) : RulesetOutcome := ⟨fun _ => .ok b⟩

/-- An engine that runs to Done with two ruleset outcomes: the first
reports changed bytes, the second (last) reports no change. -/
def doneEngine : Engine :=
  { from_args := fun _ _ => .ok ⟨[("mod", ⟨[]⟩)]⟩
    fires := fun _ _ => .Done "done"
    takeResult := fun _ => ⟨[okOutcome true, okOutcome false], "results"⟩ }

/-- An engine whose parser yields a configuration with no rulesets. -/
def emptyCfgEngine : Engine :=
  { from_args := fun _ _ => .ok ⟨[]⟩
    fires := fun _ _ => .Done "done"
    takeResult := fun _ => ⟨[], ""⟩ }

/-- Flags for a full run: debugging off, one module, an input file, hex
output mode, everything else absent. -/
def baseFlags : ChiselFlags :=
  ⟨fun k =>
    if k = "util.debugging" then some "false"
    else if k = "oneliner.modules" then some "mod"
    else if k = "oneliner.file" then some "in.wasm"
    else if k = "output.mode" then some "hex"
    else none⟩

/-- Flags with valid debugging but no modules flag. -/
def noModulesFlags : ChiselFlags :=
  ⟨fun k => if k = "util.debugging" then some "false" else none⟩

/-- Flags with valid debugging and modules but no input file flag. -/
def noFileFlags : ChiselFlags :=
  ⟨fun k =>
    if k = "util.debugging" then some "false"
    else if k = "oneliner.modules" then some "mod"
    else none⟩

/-- Flags where every lookup is absent (in particular util.debugging). -/
def emptyFlags : ChiselFlags := ⟨fun _ => none⟩

/-- The configuration `baseFlags` runs produce after binding injection. -/
def baseInjected : ChiselConfig :=
  ⟨[("mod", ⟨[("file", "in.wasm"), ("output", "/dev/stdout")]⟩)]⟩

/-! Claim theorems. -/

/-- C3: for every parsed configuration with at least one ruleset, the
binding injection (lines 48-58) rewrites exactly the first ruleset entry,
whose option map afterwards maps "file" to the resolved input path and
"output" to the resolved output target, and the remaining ruleset entries
are returned unchanged. -/
theorem c3_binding_injection_first_only (config : ChiselConfig) (name : String)
    (r0 : Ruleset) (rest : List (String × Ruleset)) (inp out : String)
    (hrs : config.rulesets = (name, r0) :: rest) :
    ∃ r0' : Ruleset,
      injectBindings config inp out = some ⟨(name, r0') :: rest⟩ ∧
      r0'.options = mapInsert (mapInsert r0.options "file" inp) "output" out ∧
      mapLookup r0'.options "file" = some inp ∧
      mapLookup r0'.options "output" = some out := by
  refine ⟨⟨mapInsert (mapInsert r0.options "file" inp) "output" out⟩,
    injectBindings_cons name r0 rest config inp out hrs, rfl, ?_, ?_⟩
  · rw [mapLookup_mapInsert_ne _ _ _ _ (by decide), mapLookup_mapInsert_self]
  · exact mapLookup_mapInsert_self ..

/-- C3 witness: injection into a concrete two-ruleset configuration. -/
theorem c3_witness :
    ∃ r0' : Ruleset,
      injectBindings ⟨[("a", ⟨[]⟩), ("b", ⟨[("x", "y")]⟩)]⟩ "in.wasm" "/dev/stdout" =
        some ⟨("a", r0') :: [("b", ⟨[("x", "y")]⟩)]⟩ ∧
      r0'.options = mapInsert (mapInsert [] "file" "in.wasm") "output" "/dev/stdout" ∧
      mapLookup r0'.options "file" = some "in.wasm" ∧
      mapLookup r0'.options "output" = some "/dev/stdout" :=
  c3_binding_injection_first_only ⟨[("a", ⟨[]⟩), ("b", ⟨[("x", "y")]⟩)]⟩ "a" ⟨[]⟩
    [("b", ⟨[("x", "y")]⟩)] "in.wasm" "/dev/stdout" rfl

/-- C4: with a valid debugging flag but no oneliner.modules flag, the run
fails with exit code 1 and message "no modules specified"; the parser is
never invoked (no arguments recorded), no driver is constructed, and no
fire call is made. -/
theorem c4_no_modules (eng : Engine) (flags : ChiselFlags) (lvl : Int)
    (hdbg : dbgLevel (flags.value_of "util.debugging") = some lvl)
    (hm : flags.value_of "oneliner.modules" = none) :
    (chisel_oneliner eng flags).outcome = .failed 1 "no modules specified" ∧
    (chisel_oneliner eng flags).parsedArgs = none ∧
    (chisel_oneliner eng flags).driverConfig = none ∧
    (chisel_oneliner eng flags).fireCount = 0 := by
  simp [chisel_oneliner, hdbg, withLogLevel, hm]

/-- C4 witness: a concrete run with the modules flag absent. -/
theorem c4_witness :
    (chisel_oneliner contEngine noModulesFlags).outcome =
      .failed 1 "no modules specified" ∧
    (chisel_oneliner contEngine noModulesFlags).parsedArgs = none ∧
    (chisel_oneliner contEngine noModulesFlags).driverConfig = none ∧
    (chisel_oneliner contEngine noModulesFlags).fireCount = 0 :=
  c4_no_modules contEngine noModulesFlags 0 rfl rfl

/-- C5: with a valid debugging flag and a modules flag but no input file
flag, the run fails with exit code 1 and message "No file specified"; the
parser is never invoked, no driver is constructed, and no fire call is
made. -/
theorem c5_no_file (eng : Engine) (flags : ChiselFlags) (lvl : Int) (ml : String)
    (hdbg : dbgLevel (flags.value_of "util.debugging") = some lvl)
    (hm : flags.value_of "oneliner.modules" = some ml)
    (hf : flags.value_of "oneliner.file" = none) :
    (chisel_oneliner eng flags).outcome = .failed 1 "No file specified" ∧
    (chisel_oneliner eng flags).parsedArgs = none ∧
    (chisel_oneliner eng flags).driverConfig = none ∧
    (chisel_oneliner eng flags).fireCount = 0 := by
  simp [chisel_oneliner, hdbg, withLogLevel, hm, withModules, hf]

/-- C5 witness: a concrete run with modules present and the file flag
absent. -/
theorem c5_witness :
    (chisel_oneliner contEngine noFileFlags).outcome =
      .failed 1 "No file specified" ∧
    (chisel_oneliner contEngine noFileFlags).parsedArgs = none ∧
    (chisel_oneliner contEngine noFileFlags).driverConfig = none ∧
    (chisel_oneliner contEngine noFileFlags).fireCount = 0 :=
  c5_no_file contEngine noFileFlags 0 "mod" rfl rfl rfl

/-- C10: when parsing succeeds but the configuration has an empty ruleset
sequence, the binding injection indexes entry 0 out of bounds and the run
ends in a panic, not in a `fail(1, msg)` exit. -/
theorem c10_empty_rulesets_panic (eng : Engine) (flags : ChiselFlags) (lvl : Int)
    (ml f : String) (cfg : ChiselConfig)
    (hdbg : dbgLevel (flags.value_of "util.debugging") = some lvl)
    (hm : flags.value_of "oneliner.modules" = some ml)
    (hf : flags.value_of "oneliner.file" = some f)
    (hargs : eng.from_args ml (optionsList flags) = .ok cfg)
    (hrs : cfg.rulesets = []) :
    (chisel_oneliner eng flags).outcome =
      .panicked "index out of bounds: the len is 0 but the index is 0" ∧
    ∀ c m, (chisel_oneliner eng flags).outcome ≠ .failed c m := by
  have hinj : injectBindings cfg f (resolveOutput (flags.value_of "oneliner.output")) =
      none := by
    unfold injectBindings
    rw [hrs]
  constructor
  · simp [chisel_oneliner, hdbg, withLogLevel, hm, withModules, hf, hargs, hinj]
  · intro c m
    simp [chisel_oneliner, hdbg, withLogLevel, hm, withModules, hf, hargs, hinj]

/-- C10 witness: a concrete run whose parser yields zero rulesets panics. -/
theorem c10_witness :
    (chisel_oneliner emptyCfgEngine baseFlags).outcome =
      .panicked "index out of bounds: the len is 0 but the index is 0" :=
  (c10_empty_rulesets_panic emptyCfgEngine baseFlags 0 "mod" "in.wasm" ⟨[]⟩
    rfl rfl rfl rfl rfl).1


/-- C7: the util.debugging flag admits exactly "true" (level 1) and "false"
(level 0); in either case the global log level is set exactly once, as the
very first action.  Any other value, absence included, panics at startup:
no level is ever set, the parser is never invoked, and no fire call is
made — nothing is silently defaulted. -/
theorem c7_debugging_flag (eng : Engine) (flags : ChiselFlags) :
    (flags.value_of "util.debugging" = some "true" →
      (chisel_oneliner eng flags).logSets = [1]) ∧
    (flags.value_of "util.debugging" = some "false" →
      (chisel_oneliner eng flags).logSets = [0]) ∧
    (flags.value_of "util.debugging" ≠ some "true" →
      flags.value_of "util.debugging" ≠ some "false" →
      (chisel_oneliner eng flags).outcome =
        .panicked "util.debugging must be set \x27true\x27 or \x27false\x27" ∧
      (chisel_oneliner eng flags).logSets = [] ∧
      (chisel_oneliner eng flags).parsedArgs = none ∧
      (chisel_oneliner eng flags).fireCount = 0) := by
  refine ⟨?_, ?_, ?_⟩
  · intro h
    have hd : dbgLevel (flags.value_of "util.debugging") = some 1 := by
      simp [dbgLevel, h]
    simp [chisel_oneliner, hd, withLogLevel_logSets]
  · intro h
    have hd : dbgLevel (flags.value_of "util.debugging") = some 0 := by
      simp [dbgLevel, h]
    simp [chisel_oneliner, hd, withLogLevel_logSets]
  · intro h1 h2
    have hd : dbgLevel (flags.value_of "util.debugging") = none := by
      simp [dbgLevel, h1, h2]
    simp [chisel_oneliner, hd]

/-- C7 witness: with every flag absent the run panics before doing
anything. -/
theorem c7_witness :
    (chisel_oneliner contEngine emptyFlags).outcome =
      .panicked "util.debugging must be set \x27true\x27 or \x27false\x27" ∧
    (chisel_oneliner contEngine emptyFlags).logSets = [] ∧
    (chisel_oneliner contEngine emptyFlags).parsedArgs = none ∧
    (chisel_oneliner contEngine emptyFlags).fireCount = 0 :=
  (c7_debugging_flag contEngine emptyFlags).2.2 (by decide) (by decide)

/-- C1 counterexample: with an engine whose advancement call returns
Continuing, the adapter does not call fire again — exactly one fire call is
made — and the run terminates by panic even though neither Done nor Error
was ever returned. -/
theorem c1_counterexample :
    (chisel_oneliner contEngine baseFlags).fireCount = 1 ∧
    (chisel_oneliner contEngine baseFlags).outcome =
      .panicked "Should never return READY" ∧
    ∀ c : Int, (chisel_oneliner contEngine baseFlags).outcome ≠ .exited c := by
  refine ⟨rfl, rfl, ?_⟩
  intro c
  simp [chisel_oneliner, contEngine, baseFlags, dbgLevel, withLogLevel, withModules,
    optionsList, resolveOutput, injectBindings, runDriver]

/-- C1 amended: the loop body leaves the loop on every arm, so exactly one
fire call is made per run; when that call returns Continuing the adapter
panics with "Should never return READY" instead of looping again. -/
theorem c1_continuing_panics (eng : Engine) (flags : ChiselFlags) (lvl : Int)
    (ml f : String) (cfg cfg' : ChiselConfig)
    (hdbg : dbgLevel (flags.value_of "util.debugging") = some lvl)
    (hm : flags.value_of "oneliner.modules" = some ml)
    (hf : flags.value_of "oneliner.file" = some f)
    (hargs : eng.from_args ml (optionsList flags) = .ok cfg)
    (hinj : injectBindings cfg f (resolveOutput (flags.value_of "oneliner.output")) =
      some cfg')
    (hcont : eng.fires cfg' 0 = .Continuing) :
    (chisel_oneliner eng flags).outcome = .panicked "Should never return READY" ∧
    (chisel_oneliner eng flags).fireCount = 1 := by
  rw [run_reaches_driver eng flags lvl ml f cfg cfg' hdbg hm hf hargs hinj]
  constructor <;> simp [runDriver, hcont]

/-- C1 witness: the amended statement at the concrete always-Continuing
engine. -/
theorem c1_witness :
    (chisel_oneliner contEngine baseFlags).outcome =
      .panicked "Should never return READY" ∧
    (chisel_oneliner contEngine baseFlags).fireCount = 1 :=
  c1_continuing_panics contEngine baseFlags 0 "mod" "in.wasm" ⟨[("mod", ⟨[]⟩)]⟩
    baseInjected rfl rfl rfl rfl rfl rfl

/-- C2 counterexample: with an engine whose advancement call returns
Error("boom", "hidden-state-diag"), the run exits via fail(1, msg) with
msg = "runtime error: boom"; the partial-state diagnostic carried alongside
the error does not occur in that message — it is discarded, not
surfaced. -/
theorem c2_counterexample :
    (chisel_oneliner errEngine baseFlags).outcome =
      .failed 1 "runtime error: boom" ∧
    ¬ ("hidden-state-diag".data <:+: "runtime error: boom".data) := by
  refine ⟨rfl, by decide⟩

/-- C2 amended: on an Error state the run terminates immediately with exit
status 1 after exactly one fire call (no retry); the message is
"runtime error: " ++ cause, so the failure cause from the engine is surfaced
verbatim as a substring, but the partial-state diagnostic is dropped. -/
theorem c2_error_fatal (eng : Engine) (flags : ChiselFlags) (lvl : Int)
    (ml f err diag : String) (cfg cfg' : ChiselConfig)
    (hdbg : dbgLevel (flags.value_of "util.debugging") = some lvl)
    (hm : flags.value_of "oneliner.modules" = some ml)
    (hf : flags.value_of "oneliner.file" = some f)
    (hargs : eng.from_args ml (optionsList flags) = .ok cfg)
    (hinj : injectBindings cfg f (resolveOutput (flags.value_of "oneliner.output")) =
      some cfg')
    (herr : eng.fires cfg' 0 = .Error err diag) :
    (chisel_oneliner eng flags).outcome = .failed 1 ("runtime error: " ++ err) ∧
    err.data <:+: ("runtime error: " ++ err).data ∧
    (chisel_oneliner eng flags).fireCount = 1 := by
  rw [run_reaches_driver eng flags lvl ml f cfg cfg' hdbg hm hf hargs hinj]
  exact ⟨by simp [runDriver, herr], ⟨"runtime error: ".data, [], by simp⟩,
    by simp [runDriver, herr]⟩

/-- C2 witness: the amended statement at the concrete failing engine. -/
theorem c2_witness :
    (chisel_oneliner errEngine baseFlags).outcome =
      .failed 1 ("runtime error: " ++ "boom") ∧
    "boom".data <:+: ("runtime error: " ++ "boom").data ∧
    (chisel_oneliner errEngine baseFlags).fireCount = 1 :=
  c2_error_fatal errEngine baseFlags 0 "mod" "in.wasm" "boom" "hidden-state-diag"
    ⟨[("mod", ⟨[]⟩)]⟩ baseInjected rfl rfl rfl rfl rfl rfl


/-- C6: when the selected write reports Ok(false) — serialized bytes equal
the persisted bytes — the run returns exit code 0, exactly as in the
Ok(true) case, and the two cases are reported by distinct eprintln lines:
"No changes to write." versus "Successfully wrote output to file.". -/
theorem c6_no_changes_is_success (eng : Engine) (flags : ChiselFlags) (lvl : Int)
    (ml f mode res : String) (cfg cfg' : ChiselConfig) (r : RulesetOutcome)
    (hdbg : dbgLevel (flags.value_of "util.debugging") = some lvl)
    (hm : flags.value_of "oneliner.modules" = some ml)
    (hf : flags.value_of "oneliner.file" = some f)
    (hargs : eng.from_args ml (optionsList flags) = .ok cfg)
    (hinj : injectBindings cfg f (resolveOutput (flags.value_of "oneliner.output")) =
      some cfg')
    (hdone : eng.fires cfg' 0 = .Done res)
    (hmode : flags.value_of "output.mode" = some mode)
    (hmode3 : mode = "bin" ∨ mode = "wat" ∨ mode = "hex")
    (hlast : (eng.takeResult cfg').rulesets.getLast? = some r) :
    (r.write mode = .ok false →
      (chisel_oneliner eng flags).outcome = .exited 0 ∧
      (chisel_oneliner eng flags).stderr =
        [(eng.takeResult cfg').display, "No changes to write."]) ∧
    (r.write mode = .ok true →
      (chisel_oneliner eng flags).outcome = .exited 0 ∧
      (chisel_oneliner eng flags).stderr =
        [(eng.takeResult cfg').display, "Successfully wrote output to file."]) ∧
    "No changes to write." ≠ "Successfully wrote output to file." := by
  rw [run_reaches_driver eng flags lvl ml f cfg cfg' hdbg hm hf hargs hinj]
  refine ⟨?_, ?_, by decide⟩
  · intro hw
    rcases hmode3 with h3 | h3 | h3 <;> subst h3 <;>
      constructor <;>
        simp [runDriver, hdone, selectMode, hmode, writeSelected, hlast, reportWrite, hw]
  · intro hw
    rcases hmode3 with h3 | h3 | h3 <;> subst h3 <;>
      constructor <;>
        simp [runDriver, hdone, selectMode, hmode, writeSelected, hlast, reportWrite, hw]

/-- C6 witness: a concrete run to Done whose last ruleset write reports no
change exits 0 and reports "No changes to write.". -/
theorem c6_witness :
    (chisel_oneliner doneEngine baseFlags).outcome = .exited 0 ∧
    (chisel_oneliner doneEngine baseFlags).stderr =
      ["results", "No changes to write."] :=
  (c6_no_changes_is_success doneEngine baseFlags 0 "mod" "in.wasm" "hex" "done"
    ⟨[("mod", ⟨[]⟩)]⟩ baseInjected (okOutcome false)
    rfl rfl rfl rfl rfl rfl rfl (Or.inr (Or.inr rfl)) rfl).1 rfl

/-- C8: the output value injected under the "output" key of the first
ruleset is `resolveOutput` of the oneliner.output flag: the supplied
value when present, and "/dev/stdout" (the standard output stream) when
absent. -/
theorem c8_output_target (eng : Engine) (flags : ChiselFlags) (lvl : Int)
    (ml f name : String) (r0 : Ruleset) (rest : List (String × Ruleset))
    (cfg : ChiselConfig)
    (hdbg : dbgLevel (flags.value_of "util.debugging") = some lvl)
    (hm : flags.value_of "oneliner.modules" = some ml)
    (hf : flags.value_of "oneliner.file" = some f)
    (hargs : eng.from_args ml (optionsList flags) = .ok cfg)
    (hrs : cfg.rulesets = (name, r0) :: rest) :
    ∃ cfg' r0',
      (chisel_oneliner eng flags).driverConfig = some cfg' ∧
      cfg'.rulesets = (name, r0') :: rest ∧
      mapLookup r0'.options "output" =
        some (resolveOutput (flags.value_of "oneliner.output")) ∧
      (flags.value_of "oneliner.output" = none →
        resolveOutput (flags.value_of "oneliner.output") = "/dev/stdout") ∧
      (∀ p, flags.value_of "oneliner.output" = some p →
        resolveOutput (flags.value_of "oneliner.output") = p) := by
  have hinj := injectBindings_cons name r0 rest cfg f
    (resolveOutput (flags.value_of "oneliner.output")) hrs
  refine ⟨_, ⟨mapInsert (mapInsert r0.options "file" f) "output"
      (resolveOutput (flags.value_of "oneliner.output"))⟩, ?_, rfl,
    mapLookup_mapInsert_self .., ?_, ?_⟩
  · rw [run_reaches_driver eng flags lvl ml f cfg _ hdbg hm hf hargs hinj]
    exact runDriver_driverConfig ..
  · intro h
    simp [resolveOutput, h]
  · intro p h
    simp [resolveOutput, h]

/-- C8 witness: with the output flag absent the injected target is
/dev/stdout. -/
theorem c8_witness :
    ∃ cfg' r0',
      (chisel_oneliner contEngine baseFlags).driverConfig = some cfg' ∧
      cfg'.rulesets = ("mod", r0') :: [] ∧
      mapLookup r0'.options "output" =
        some (resolveOutput (baseFlags.value_of "oneliner.output")) ∧
      (baseFlags.value_of "oneliner.output" = none →
        resolveOutput (baseFlags.value_of "oneliner.output") = "/dev/stdout") ∧
      (∀ p, baseFlags.value_of "oneliner.output" = some p →
        resolveOutput (baseFlags.value_of "oneliner.output") = p) :=
  c8_output_target contEngine baseFlags 0 "mod" "in.wasm" "mod" ⟨[]⟩ [] ⟨[("mod", ⟨[]⟩)]⟩
    rfl rfl rfl rfl rfl

/-- C9: the ruleset outcome handed to write is the one Vec::pop removes —
the LAST element of the collection held by the execution result; the
final outcome of the run is exactly the report of the write of that last
element, whatever the earlier elements (in particular the outcome of the
first, binding-injected ruleset) are. -/
theorem c9_pop_writes_last (eng : Engine) (flags : ChiselFlags) (lvl : Int)
    (ml f mode res : String) (cfg cfg' : ChiselConfig) (r : RulesetOutcome)
    (rs : List RulesetOutcome)
    (hdbg : dbgLevel (flags.value_of "util.debugging") = some lvl)
    (hm : flags.value_of "oneliner.modules" = some ml)
    (hf : flags.value_of "oneliner.file" = some f)
    (hargs : eng.from_args ml (optionsList flags) = .ok cfg)
    (hinj : injectBindings cfg f (resolveOutput (flags.value_of "oneliner.output")) =
      some cfg')
    (hdone : eng.fires cfg' 0 = .Done res)
    (hmode : flags.value_of "output.mode" = some mode)
    (hmode3 : mode = "bin" ∨ mode = "wat" ∨ mode = "hex")
    (hsplit : (eng.takeResult cfg').rulesets = rs ++ [r]) :
    (eng.takeResult cfg').rulesets.getLast? = some r ∧
    (chisel_oneliner eng flags).outcome = (reportWrite (r.write mode)).1 := by
  have hlast : (eng.takeResult cfg').rulesets.getLast? = some r := by
    rw [hsplit]
    simp
  refine ⟨hlast, ?_⟩
  rw [run_reaches_driver eng flags lvl ml f cfg cfg' hdbg hm hf hargs hinj]
  rcases hmode3 with h3 | h3 | h3 <;> subst h3 <;>
    simp [runDriver, hdone, selectMode, hmode, writeSelected, hlast]

/-- C9 witness: with outcomes [changed, unchanged] in execution order, the
run reports the write of the last outcome (exit 0 via Ok(false)), not the
first. -/
theorem c9_witness :
    (doneEngine.takeResult baseInjected).rulesets.getLast? =
      some (okOutcome false) ∧
    (chisel_oneliner doneEngine baseFlags).outcome =
      (reportWrite ((okOutcome false).write "hex")).1 :=
  c9_pop_writes_last doneEngine baseFlags 0 "mod" "in.wasm" "hex" "done"
    ⟨[("mod", ⟨[]⟩)]⟩ baseInjected (okOutcome false) [okOutcome true]
    rfl rfl rfl rfl rfl rfl rfl (Or.inr (Or.inr rfl)) rfl

end Chisel
